import Mathlib

/-!
Verification of the go-safeconcurrency library against its specification.

The Go source is shallowly embedded: channels become explicit FIFO buffers
with a closed flag, goroutine-visible effects become explicit state passing,
`panic` becomes `Except String`, Go `error` values become an inductive
`GoError` with `Option GoError` standing for the nullable `error` type, and
the nondeterministic outcomes of `select` statements and cancellable waits
are passed in as explicit parameters.  `uint64` arithmetic is `Nat` with an
explicit `% 2 ^ 64`.
-/

namespace SafeConcurrency

/-- Go `error` values used by the library: a context-cancellation cause,
the two sentinel errors of `api/safeconcurrencyerrors`, and opaque
user-produced errors (indexed by a number). -/
inductive GoError where
  | canceled : GoError
  | stop : GoError
  | errEventLoopClosed : GoError
  | userErr : Nat → GoError
deriving DecidableEq, Repr

/-- A `context.Context` as observed at one instant: `cause` is what
`context.Cause(ctx)` returns (`none` for a live context). -/
structure Ctx where
  cause : Option GoError
deriving DecidableEq, Repr

/-- A Go channel: `buf` is the FIFO sequence of values sent and not yet
received (in send order), `closed` records whether `close` has run. -/
structure Chan (T : Type) where
  buf : List T
  closed : Bool
deriving DecidableEq, Repr

/-- `make(chan T, buffer)`: a fresh, open, empty channel (the capacity only
bounds concurrent occupancy, which the sequential embedding does not
track). -/
def Chan.make (T : Type) : Chan T :=
  { buf := [], closed := false }

/-- `emitter.Emit` (results/emitter.go): pre-check `context.Cause`, then
select on cancellation vs send.  With a live context the `ctx.Done()` arm
can never fire, so the send arm is taken; with a cancelled context the
pre-check already returns the cause. -/
def emitterEmit (ctx : Ctx) (c : Chan T) (v : T) : Except GoError (Chan T) :=
  match ctx.cause with
  | some e => .error e
  | none => .ok { c with buf := c.buf ++ [v] }

/-- `emitter.Close` (results/emitter.go): closes the underlying channel;
`closeOnce` makes the operation idempotent. -/
def emitterClose (c : Chan T) : Chan T :=
  { c with closed := true }

/-- A producer run (`types.Producer.Run`), seen through its interaction with
the emitter: from the context and the current channel it yields the channel
after all of its `Emit` calls together with its returned `error`. -/
def ProducerRun (T : Type) : Type :=
  Ctx → Chan T → Chan T × Option GoError

/-- The canonical producer that emits a fixed list of values in order via
`emitterEmit`, stopping at the first emit error, and returns `nil` when all
emits succeed (its returned error is the first emit error, if any). -/
def runListProducer (vs : List T) : ProducerRun T :=
  fun ctx c =>
    match vs with
    | [] => (c, none)
    | v :: rest =>
      match emitterEmit ctx c v with
      | .error e => (c, some e)
      | .ok c' => runListProducer rest ctx c'

/-- State of a `generator.generator`: its results channel, the `done`
signal, the terminal error slot and the started-once flag. -/
structure Generator (T : Type) where
  results : Chan T
  done : Bool
  err : Option GoError
  started : Bool
deriving DecidableEq, Repr

/-- `generator.NewGeneratorBuffered`: fresh channel, open done signal,
empty error slot, not started. -/
def NewGeneratorBuffered (T : Type) : Generator T :=
  { results := Chan.make T, done := false, err := none, started := false }

/-- `generator.startInner`: runs the producer on the results channel,
records its returned error in the terminal slot, then (by the deferred
calls) closes the done signal and closes the emitter, hence the channel. -/
def startInner (ctx : Ctx) (run : ProducerRun T) (g : Generator T) :
    Generator T :=
  let r := run ctx g.results
  { g with
    err := r.2
    done := true
    results := emitterClose r.1 }

/-- `generator.Start`: `started.Swap(true)` panics when the generator was
already started; otherwise the background goroutine `startInner` is
spawned.  The embedding returns the generator state once that goroutine has
completed. -/
def generatorStart (ctx : Ctx) (run : ProducerRun T) (g : Generator T) :
    Except String (Generator T) :=
  if g.started then
    .error "attempt to start previously started generator.Generator"
  else
    .ok (startInner ctx run { g with started := true })

/-- `generator.Wait`: blocks on the done signal, then returns the terminal
error; `none` while the producer has not finished. -/
def generatorWait (g : Generator T) : Option (Option GoError) :=
  if g.done then some g.err else none

/-! ## Worker pool (workpool/pool.go) -/

/-- State of a `workpool.pool` relevant to its lifecycle: worker count,
the started-once flag and the closed-once flag (the request queue itself is
carried separately where a claim needs it). -/
structure Pool where
  concurrency : Nat
  started : Bool
  closedRequests : Bool
deriving DecidableEq, Repr

/-- `workpool.NewPoolBuffered`: panics when `concurrency <= 0` (Go `int`,
embedded as `Int`), otherwise an unstarted pool with that many workers. -/
def NewPoolBuffered (concurrency : Int) : Except String Pool :=
  if concurrency ≤ 0 then
    .error "Worker pool must have at least one worker!"
  else
    .ok { concurrency := concurrency.toNat, started := false,
          closedRequests := false }

/-- `pool.Start`: `started.Swap(true)` panics when the pool was already
started; otherwise the workers are spawned and the pool is running. -/
def poolStart (p : Pool) : Except String Pool :=
  if p.started then
    .error "attempt to start previously started pool.Pool"
  else
    .ok { p with started := true }

/-! ## Task wrappers and task results (workpool/task/task.go) -/

/-- A `types.Task` execution: from the shared resource to the produced
value and the returned `error` (the context it also receives is fixed at
wrap time and plays no role in the wrapped data flow). -/
def TaskExec (R V : Type) : Type := R → V × Option GoError

/-- State owned by a `task.taskResult`: the read side of the results
channel and the shared terminal-error slot. -/
structure TaskResult (V : Type) where
  results : Chan V
  err : Option GoError
deriving DecidableEq, Repr

/-- `taskResult.Drain`: `for range` over the results channel consumes every
remaining value and terminates only once the channel is closed (`none`
models blocking forever on an unclosed channel), then reads the shared
error slot. -/
def taskResultDrain (tr : TaskResult V) : Option (TaskResult V × Option GoError) :=
  if tr.results.closed then
    some ({ tr with results := { tr.results with buf := [] } }, tr.err)
  else
    none

/-- `taskWrapper.Execute`: runs the task, stores its error in the shared
slot, sends the produced value on the capacity-1 channel, and the deferred
`close` then closes the channel.  Returns the channel contents and the
error-slot value observable once the worker has finished. -/
def taskWrapperExecute (task : TaskExec R V) (resource : R) :
    Chan V × Option GoError :=
  let ve := task resource
  (emitterClose { buf := [ve.1], closed := false }, ve.2)

/-- `workpool.Submit` on the path where the task is enqueued and executed
to completion: pre-check `context.Cause`; on a live context the submit
select and the result select can only take their channel arms, so the call
receives the wrapper's single value and then drains for the terminal
error, preferring that error over the received value.  `zero` is the Go
zero value of `ValueT`. -/
def Submit (ctx : Ctx) (task : TaskExec R V) (resource : R) (zero : V) :
    V × Option GoError :=
  match ctx.cause with
  | some e => (zero, some e)
  | none =>
    let ce := taskWrapperExecute task resource
    match ce.1.buf with
    | [] => (zero, none)
    | v :: rest =>
      let tr : TaskResult V :=
        { results := { buf := rest, closed := ce.1.closed }, err := ce.2 }
      match taskResultDrain tr with
      | none => (zero, none)
      | some dr =>
        match dr.2 with
        | some e => (zero, some e)
        | none => (v, none)

/-! ## Streaming submit (workpool/util.go) -/

/-- A `types.ResultCallback` whose only effect is its returned `error`
(state-carrying callbacks are modelled separately where needed). -/
def Callback (V : Type) : Type := V → Option GoError

/-- `workpool.callbackTaskResults` on a live context: receives each value
of the (eventually closed) results stream in order, invoking the callback;
returns the callback's first error, or `nil` once the channel closes. -/
def callbackTaskResults (values : List V) (callback : Callback V) :
    Option GoError :=
  match values with
  | [] => none
  | v :: rest =>
    match callback v with
    | some e => some e
    | none => callbackTaskResults rest callback

/-- `workpool.SubmitStreamingBuffered` on the path where the task is
enqueued on a live context: `values` is what the streaming task emitted
before its wrapper closed the channel and `taskErr` what it stored in the
shared error slot.  The callback loop runs; a callback error cancels the
child context and is returned unless it is the sentinel `Stop`, which is
mapped to `nil`; with no callback error the drained terminal error is
returned. -/
def SubmitStreamingBuffered (values : List V) (callback : Callback V)
    (taskErr : Option GoError) : Option GoError :=
  match callbackTaskResults values callback with
  | some callbackErr =>
    if callbackErr = GoError.stop then none else some callbackErr
  | none => taskErr

/-- The callback loop of `workpool.SubmitStreamingCollectAll`: its callback
appends every value to the `results` slice and returns `nil`. -/
def collectCallbackLoop (values : List V) (acc : List V) : List V :=
  match values with
  | [] => acc
  | v :: rest => collectCallbackLoop rest (acc ++ [v])

/-- `workpool.SubmitStreamingCollectAll` on the enqueued path:
`results := make([]ValueT, 0)` (non-nil, empty) is filled by the appending
callback; when the streaming submission reports an error the function
returns the `nil` slice (`none`) with that error, otherwise the collected
slice and `nil` error.  The appending callback never errs, so the
submission error is exactly `SubmitStreamingBuffered` with a nil-returning
callback. -/
def SubmitStreamingCollectAll (values : List V) (taskErr : Option GoError) :
    Option (List V) × Option GoError :=
  let results := collectCallbackLoop values []
  match SubmitStreamingBuffered values (fun _ => none) taskErr with
  | some e => (none, some e)
  | none => (some results, none)

/-! ## Event loop (eventloop, `eventLoop.Send`) -/

/-- State of an `eventloop.eventLoop` relevant to `Send`: the generation
counter (a `uint64`, embedded as `Nat` with values kept below `2 ^ 64`) and
the number of event tasks enqueued on the internal pool's request queue. -/
structure EventLoop where
  generation : Nat
  queued : Nat
deriving DecidableEq, Repr

/-- `eventLoop.Send`.  The nondeterministic outcomes of its three
cancellation points are explicit parameters: `precheck` is
`context.Cause(ctx)` at entry, `lockResult` what
`generationLock.LockWithContext` returns, and `selectResult` the arm the
final select takes (`some e`: the `ctx.Done()` arm fired with cause `e`;
`none`: the event task was sent on the request queue).  On the enqueue arm
the generation counter is incremented (uint64 arithmetic) and its new value
returned with a `nil` error. -/
def eventLoopSend (precheck lockResult selectResult : Option GoError)
    (l : EventLoop) : EventLoop × Nat × Option GoError :=
  match precheck with
  | some e => (l, 0, some e)
  | none =>
    match lockResult with
    | some e => (l, 0, some e)
    | none =>
      match selectResult with
      | some e => (l, 0, some e)
      | none =>
        let g := (l.generation + 1) % 2 ^ 64
        ({ l with generation := g, queued := l.queued + 1 }, g, none)

/-! ## State snapshots (eventloop/snapshot/abstract.go and the value
variant built on it) -/

/-- The heap of `struct{}` channels used as expiration signals: channels
are identified by allocation order; `closed i` tells whether channel `i`
has been closed.  Only identifiers below `size` are allocated. -/
structure ChanHeap where
  size : Nat
  closed : Nat → Bool

/-- `make(chan struct{})`: allocates a fresh, open channel. -/
def ChanHeap.alloc (h : ChanHeap) : Nat × ChanHeap :=
  (h.size,
   { size := h.size + 1,
     closed := fun i => if i = h.size then false else h.closed i })

/-- `close` on channel `id` of the heap. -/
def ChanHeap.closeChan (h : ChanHeap) (id : Nat) : ChanHeap :=
  { h with closed := fun i => if i = id then true else h.closed i }

/-- A snapshot whose expiration channel is allocated in the heap. -/
def ChanHeap.validId (h : ChanHeap) (id : Nat) : Prop := id < h.size

/-- The `snapshot.abstract` part of a state snapshot: its generation ID
(`uint64`) and the identity of its expiration channel. -/
structure AbstractSnap where
  gen : Nat
  expId : Nat
deriving DecidableEq, Repr

/-- `abstract.Next`: shallow-copies the snapshot, allocates a new
expiration channel and a new `expireOnce`, and sets the copy's generation
to the old generation plus one (uint64 arithmetic).  The old snapshot's
channel is not closed. -/
def abstractNext (s : AbstractSnap) (h : ChanHeap) : AbstractSnap × ChanHeap :=
  let a := h.alloc
  ({ gen := (s.gen + 1) % 2 ^ 64, expId := a.1 }, a.2)

/-- `abstract.Expire`: closes the expiration channel (idempotently, via
`expireOnce`). -/
def abstractExpire (s : AbstractSnap) (h : ChanHeap) : ChanHeap :=
  h.closeChan s.expId

/-- The `snapshot.value` variant: the abstract part plus the stored state
(its `State()` returns the value as-is). -/
structure ValueSnap (S : Type) where
  ab : AbstractSnap
  state : S
deriving DecidableEq, Repr

/-- `value.Next`: shallow copy with the abstract part replaced by
`abstract.Next()` and the state replaced by the argument. -/
def valueNext (s : ValueSnap S) (x : S) (h : ChanHeap) :
    ValueSnap S × ChanHeap :=
  let a := abstractNext s.ab h
  ({ ab := a.1, state := x }, a.2)

/-- `eventWrapper.Execute` (the event-loop worker body): loads the current
snapshot, dispatches the event at generation `current + 1` over the current
state, builds `next = current.Next(newState)`, stores it, and the deferred
call then expires the predecessor.  Returns the stored snapshot and the
heap after the deferred `Expire`. -/
def eventWrapperExecute (dispatch : Nat → S → S) (cur : ValueSnap S)
    (h : ChanHeap) : ValueSnap S × ChanHeap :=
  let state := dispatch ((cur.ab.gen + 1) % 2 ^ 64) cur.state
  let a := valueNext cur state h
  (a.1, abstractExpire cur.ab a.2)

/-! ## WaitForGeneration (eventloop/util.go) -/

/-- What the three-way select of one `WaitForGeneration` iteration resolves
to when the snapshot read at the top of the loop has not yet reached the
requested generation: the `ctx.Done()` arm with the context's cause, the
`eventLoop.Done()` arm (carrying the snapshot the function then re-reads),
or the `snapshot.Expiration()` arm. -/
inductive WaitBranch (S : Type) where
  | ctxDone (cause : GoError) : WaitBranch S
  | loopDone (reread : ValueSnap S) : WaitBranch S
  | expired : WaitBranch S
deriving DecidableEq

/-- `eventloop.WaitForGeneration`, driven by the trace of its interactions
with the environment: each element gives the snapshot `eventLoop.Snapshot()`
returned at the top of that iteration and, if that snapshot's generation is
short of the goal, the select arm taken.  The result is `none` when the
trace is exhausted without resolution (the call is still blocked),
otherwise the `(snapshot, error)` pair returned, with Go's
`(nil, err)` as `.error err`. -/
def WaitForGeneration (gen : Nat)
    (trace : List (ValueSnap S × WaitBranch S)) :
    Option (Except GoError (ValueSnap S)) :=
  match trace with
  | [] => none
  | (snap, br) :: rest =>
    if snap.ab.gen ≥ gen then
      some (.ok snap)
    else
      match br with
      | .ctxDone cause => some (.error cause)
      | .loopDone reread =>
        if reread.ab.gen ≥ gen then
          some (.ok reread)
        else
          some (.error GoError.errEventLoopClosed)
      | .expired => WaitForGeneration gen rest

/-! ## Helper lemmas -/

/-- On a live context every `Emit` of the list producer succeeds: it
appends its values to the channel in order and returns `nil`. -/
theorem runListProducer_live (vs : List T) (ctx : Ctx) (c : Chan T)
    (hctx : ctx.cause = none) :
    runListProducer vs ctx c = ({ c with buf := c.buf ++ vs }, none) := by
  induction vs generalizing c with
  | nil => simp [runListProducer]
  | cons v rest ih =>
    simp only [runListProducer, emitterEmit, hctx]
    rw [ih]
    simp

/-- A callback that always returns `nil` never terminates the receive loop
early. -/
theorem callbackTaskResults_nil_callback (values : List V) :
    callbackTaskResults values (fun _ => (none : Option GoError)) = none := by
  induction values with
  | nil => rfl
  | cons v rest ih => simpa [callbackTaskResults] using ih

/-- The appending callback collects exactly the received values, in order,
after its accumulator. -/
theorem collectCallbackLoop_eq (values acc : List V) :
    collectCallbackLoop values acc = acc ++ values := by
  induction values generalizing acc with
  | nil => simp [collectCallbackLoop]
  | cons v rest ih => simp [collectCallbackLoop, ih]

/-! ## Claim theorems -/

/-- C1.  Generator round-trip: for every finite sequence `vs`, a producer
that emits `vs` in order via the emitter (each emit succeeding, which holds
on a live context) and returns `nil` makes the started generator's result
channel yield exactly `vs` in order followed by channel closure, and
`Wait()` returns `nil`. -/
theorem generator_roundtrip (ctx : Ctx) (vs : List T) (run : ProducerRun T)
    (hctx : ctx.cause = none)
    (hrun : ∀ c, run ctx c = runListProducer vs ctx c) :
    ∃ g, generatorStart ctx run (NewGeneratorBuffered T) = .ok g ∧
      g.results.buf = vs ∧ g.results.closed = true ∧
      generatorWait g = some none := by
  refine ⟨{ results := { buf := vs, closed := true }, done := true,
            err := none, started := true }, ?_, rfl, rfl, rfl⟩
  simp [generatorStart, NewGeneratorBuffered, startInner, hrun,
    runListProducer_live _ _ _ hctx, Chan.make, emitterClose]

/-- Witness for C1: the producer emitting `[1, 2, 3]` on a live context
yields exactly `[1, 2, 3]`, a closed channel, and a `nil` wait result. -/
theorem generator_roundtrip_witness :
    ∃ g, generatorStart ⟨none⟩ (runListProducer [1, 2, 3])
        (NewGeneratorBuffered Nat) = .ok g ∧
      g.results.buf = [1, 2, 3] ∧ g.results.closed = true ∧
      generatorWait g = some none :=
  generator_roundtrip ⟨none⟩ [1, 2, 3] (runListProducer [1, 2, 3]) rfl
    (fun _ => rfl)

/-- C2, counterexample.  The generation counter is a Go `uint64`, so the
increment performed on a successful enqueue wraps: starting from counter
`2 ^ 64 - 1`, a successful `Send` leaves the counter at `0`, not at the
old value plus one. -/
theorem eventLoopSend_increment_counterexample :
    ¬ ((eventLoopSend none none none
          { generation := 2 ^ 64 - 1, queued := 0 }).1.generation
        = (2 ^ 64 - 1) + 1) := by
  show ¬ ((2 ^ 64 - 1 + 1) % 2 ^ 64 = 2 ^ 64 - 1 + 1)
  norm_num

/-- C2, amended.  For every event loop and every `Send(ctx, event)`: if the
event task is successfully enqueued, the generation counter becomes its old
value plus one modulo `2 ^ 64` (uint64 increment, equal to old value plus
one except at `2 ^ 64 - 1`) and `Send` returns the new counter value with a
`nil` error; if instead the context is cancelled — at the entry pre-check,
while acquiring the generation lock, or during the enqueue wait — `Send`
returns the cancellation cause and the counter (and queue) are unchanged. -/
theorem eventLoopSend_spec (l : EventLoop) (e : GoError)
    (lr sr : Option GoError) :
    eventLoopSend none none none l =
      ({ generation := (l.generation + 1) % 2 ^ 64, queued := l.queued + 1 },
        (l.generation + 1) % 2 ^ 64, none)
    ∧ eventLoopSend (some e) lr sr l = (l, 0, some e)
    ∧ eventLoopSend none (some e) sr l = (l, 0, some e)
    ∧ eventLoopSend none none (some e) l = (l, 0, some e) := by
  refine ⟨rfl, rfl, rfl, rfl⟩

/-- C3.  `WaitForGeneration`: whenever the snapshot read at the top of an
iteration has generation at least `gen`, it is returned with a `nil` error;
and if, with no snapshot of sufficient generation observed (every earlier
iteration saw a short snapshot and took the expiration arm), the loop's
done signal is selected, the snapshot is re-read once more — if that
re-read reaches `gen` it is returned with a `nil` error, otherwise the call
returns a nil snapshot with the `EventLoopClosed` sentinel. -/
theorem waitForGeneration_spec {S : Type} (gen : Nat) :
    (∀ (snap : ValueSnap S) (br : WaitBranch S)
       (rest : List (ValueSnap S × WaitBranch S)),
       snap.ab.gen ≥ gen →
       WaitForGeneration gen ((snap, br) :: rest) = some (.ok snap))
    ∧ (∀ (pre : List (ValueSnap S × WaitBranch S)) (snap reread : ValueSnap S),
       (∀ p ∈ pre, p.1.ab.gen < gen ∧ p.2 = WaitBranch.expired) →
       snap.ab.gen < gen →
       (reread.ab.gen ≥ gen →
          WaitForGeneration gen (pre ++ [(snap, WaitBranch.loopDone reread)])
            = some (.ok reread))
       ∧ (reread.ab.gen < gen →
          WaitForGeneration gen (pre ++ [(snap, WaitBranch.loopDone reread)])
            = some (.error GoError.errEventLoopClosed))) := by
  constructor
  · intro snap br rest hge
    simp [WaitForGeneration, hge]
  · intro pre snap reread hpre hlt
    induction pre with
    | nil =>
      constructor
      · intro hge
        simp [WaitForGeneration, Nat.not_le.mpr hlt, hge]
      · intro hr
        simp [WaitForGeneration, Nat.not_le.mpr hlt, Nat.not_le.mpr hr]
    | cons p rest ih =>
      have hp := hpre p (List.mem_cons_self p rest)
      have hrest : ∀ q ∈ rest, q.1.ab.gen < gen ∧ q.2 = WaitBranch.expired :=
        fun q hq => hpre q (List.mem_cons_of_mem p hq)
      obtain ⟨hplt, hpbr⟩ := hp
      obtain ⟨p1, p2⟩ := p
      simp only at hpbr
      subst hpbr
      constructor
      · intro hge
        simpa [WaitForGeneration, Nat.not_le.mpr hplt] using (ih hrest).1 hge
      · intro hr
        simpa [WaitForGeneration, Nat.not_le.mpr hplt] using (ih hrest).2 hr

/-- Witness for C3: with goal generation 2, a first iteration seeing a
short snapshot and expiring, then an iteration whose select takes the done
arm with the re-read still short, returns the `EventLoopClosed` sentinel;
and a head snapshot at generation 3 is returned directly. -/
theorem waitForGeneration_spec_witness :
    WaitForGeneration 2
        [(⟨⟨3, 0⟩, (0 : Nat)⟩, WaitBranch.expired)]
      = some (.ok ⟨⟨3, 0⟩, (0 : Nat)⟩)
    ∧ WaitForGeneration 2
        [(⟨⟨0, 0⟩, (0 : Nat)⟩, WaitBranch.expired),
         (⟨⟨1, 1⟩, (5 : Nat)⟩, WaitBranch.loopDone ⟨⟨1, 1⟩, 5⟩)]
      = some (.error GoError.errEventLoopClosed) := by
  constructor
  · exact (waitForGeneration_spec 2).1 ⟨⟨3, 0⟩, 0⟩ WaitBranch.expired []
      (by decide)
  · exact ((waitForGeneration_spec 2).2 [(⟨⟨0, 0⟩, 0⟩, WaitBranch.expired)]
      ⟨⟨1, 1⟩, 5⟩ ⟨⟨1, 1⟩, 5⟩ (by decide) (by decide)).2 (by decide)

/-- C4.  Streaming-submit error preference: if the callback loop ends with
a non-`Stop` callback error `e`, the overall call returns `e` whatever the
task's terminal error is; if the callback returns the sentinel `Stop`, the
call returns `nil`; if the callback never errs and the task's terminal
error is `taskErr`, the call returns `taskErr`. -/
theorem submitStreaming_error_preference (values : List V)
    (callback : Callback V) (taskErr : Option GoError) (e : GoError) :
    (callbackTaskResults values callback = some e → e ≠ GoError.stop →
       SubmitStreamingBuffered values callback taskErr = some e)
    ∧ (callbackTaskResults values callback = some GoError.stop →
       SubmitStreamingBuffered values callback taskErr = none)
    ∧ (callbackTaskResults values callback = none →
       SubmitStreamingBuffered values callback taskErr = taskErr) := by
  refine ⟨?_, ?_, ?_⟩
  · intro hcb hne
    simp [SubmitStreamingBuffered, hcb, hne]
  · intro hcb
    simp [SubmitStreamingBuffered, hcb]
  · intro hcb
    simp [SubmitStreamingBuffered, hcb]

/-- Witness for C4: a callback failing with `userErr 7` on the first of two
values makes the call return `userErr 7` even though the task failed with
`userErr 9`; a callback returning `Stop` yields `nil`; a never-failing
callback surfaces the task's `userErr 9`. -/
theorem submitStreaming_error_preference_witness :
    SubmitStreamingBuffered [10, 20]
        (fun _ => some (GoError.userErr 7)) (some (GoError.userErr 9))
      = some (GoError.userErr 7)
    ∧ SubmitStreamingBuffered [10, 20] (fun _ => some GoError.stop)
        (some (GoError.userErr 9)) = none
    ∧ SubmitStreamingBuffered ([10, 20] : List Nat) (fun _ => none)
        (some (GoError.userErr 9)) = some (GoError.userErr 9) := by
  refine ⟨?_, ?_, ?_⟩
  · exact (submitStreaming_error_preference [10, 20]
      (fun _ => some (GoError.userErr 7)) (some (GoError.userErr 9))
      (GoError.userErr 7)).1 rfl (by decide)
  · exact (submitStreaming_error_preference [10, 20]
      (fun _ => some GoError.stop) (some (GoError.userErr 9))
      GoError.stop).2.1 rfl
  · exact (submitStreaming_error_preference ([10, 20] : List Nat)
      (fun _ => none) (some (GoError.userErr 9))
      GoError.stop).2.2 rfl

/-- C5.  The single-value task wrapper writes exactly one value — the one
the task produced — to the capacity-1 channel and then closes it, even
when the task's error is non-nil; and `Submit` on a live context returns
`(zero, err)` when the task returned error `err ≠ nil` and `(v, nil)` when
the task returned `(v, nil)`: the task's error is returned ahead of the
produced value. -/
theorem submit_prefers_task_error (ctx : Ctx) (task : TaskExec R V)
    (resource : R) (zero : V) (hctx : ctx.cause = none) :
    (taskWrapperExecute task resource).1.buf = [(task resource).1]
    ∧ (taskWrapperExecute task resource).1.closed = true
    ∧ Submit ctx task resource zero =
        (match (task resource).2 with
         | some e => (zero, some e)
         | none => ((task resource).1, none)) := by
  refine ⟨rfl, rfl, ?_⟩
  simp only [Submit, hctx, taskWrapperExecute, emitterClose, taskResultDrain]
  cases h : (task resource).2 <;> simp [h]

/-- Witness for C5: a task producing `(42, userErr 3)` yields a channel
holding exactly `[42]`, closed, and `Submit` returns the zero value with
`userErr 3`; dropping the error, `Submit` returns `(42, nil)`. -/
theorem submit_prefers_task_error_witness :
    (taskWrapperExecute (fun _ : Unit => ((42 : Nat), some (GoError.userErr 3)))
        ()).1.buf = [42]
    ∧ (taskWrapperExecute (fun _ : Unit => ((42 : Nat), some (GoError.userErr 3)))
        ()).1.closed = true
    ∧ Submit ⟨none⟩ (fun _ : Unit => ((42 : Nat), some (GoError.userErr 3)))
        () 0 = (0, some (GoError.userErr 3))
    ∧ Submit ⟨none⟩ (fun _ : Unit => ((42 : Nat), none)) () 0 = (42, none) := by
  have h1 := submit_prefers_task_error ⟨none⟩
    (fun _ : Unit => ((42 : Nat), some (GoError.userErr 3))) () 0 rfl
  have h2 := submit_prefers_task_error ⟨none⟩
    (fun _ : Unit => ((42 : Nat), none)) () 0 rfl
  exact ⟨h1.1, h1.2.1, h1.2.2, h2.2.2⟩

/-- C6, counterexample.  The generation ID is a Go `uint64`, so
`abstract.Next` wraps: a snapshot at generation `2 ^ 64 - 1` yields a
successor at generation `0`, not at `s.Generation() + 1`. -/
theorem snapshot_next_gen_counterexample :
    ¬ ((valueNext { ab := { gen := 2 ^ 64 - 1, expId := 0 }, state := (0 : Nat) }
          1 { size := 1, closed := fun _ => false }).1.ab.gen
        = (2 ^ 64 - 1) + 1) := by
  show ¬ ((2 ^ 64 - 1 + 1) % 2 ^ 64 = 2 ^ 64 - 1 + 1)
  norm_num

/-- C6, amended.  For every state snapshot `s` (with its expiration channel
allocated in the heap) and every state `x`, `next = s.Next(x)` has
generation `(s.Generation() + 1) mod 2 ^ 64` (uint64 increment, equal to
`s.Generation() + 1` except at `2 ^ 64 - 1`), stores `x`, and carries a
freshly allocated, not-yet-closed expiration channel distinct from `s`'s
expiration channel. -/
theorem snapshot_next_spec (s : ValueSnap S) (x : S) (h : ChanHeap)
    (hv : h.validId s.ab.expId) :
    (valueNext s x h).1.ab.gen = (s.ab.gen + 1) % 2 ^ 64
    ∧ (valueNext s x h).1.state = x
    ∧ (valueNext s x h).1.ab.expId ≠ s.ab.expId
    ∧ (valueNext s x h).2.validId (valueNext s x h).1.ab.expId
    ∧ (valueNext s x h).2.closed (valueNext s x h).1.ab.expId = false := by
  refine ⟨rfl, rfl, ?_, ?_, ?_⟩
  · have : s.ab.expId < h.size := hv
    simp only [valueNext, abstractNext, ChanHeap.alloc]
    omega
  · simp [valueNext, abstractNext, ChanHeap.alloc, ChanHeap.validId]
  · simp [valueNext, abstractNext, ChanHeap.alloc]

/-- Witness for C6: from a generation-4 snapshot in a one-channel heap,
`Next` produces a generation-5 snapshot with the new state and a distinct,
open expiration channel. -/
theorem snapshot_next_spec_witness :
    (valueNext { ab := { gen := 4, expId := 0 }, state := (7 : Nat) } 8
        { size := 1, closed := fun _ => false }).1.ab.gen = (4 + 1) % 2 ^ 64
    ∧ (valueNext { ab := { gen := 4, expId := 0 }, state := (7 : Nat) } 8
        { size := 1, closed := fun _ => false }).1.state = 8
    ∧ (valueNext { ab := { gen := 4, expId := 0 }, state := (7 : Nat) } 8
        { size := 1, closed := fun _ => false }).1.ab.expId ≠ 0 := by
  have h := snapshot_next_spec
    { ab := { gen := 4, expId := 0 }, state := (7 : Nat) } 8
    { size := 1, closed := fun _ => false } (by norm_num [ChanHeap.validId])
  exact ⟨h.1, h.2.1, h.2.2.1⟩

/-- C7.  Drain idempotence: once the task wrapper has closed the result
channel, the first `Drain()` consumes all remaining values and returns the
task's terminal error, and calling `Drain()` again on the drained result
returns the very same error (and leaves the state fixed, so every further
call does too). -/
theorem drain_idempotent (tr : TaskResult V)
    (hclosed : tr.results.closed = true) :
    ∃ tr1, taskResultDrain tr = some (tr1, tr.err)
      ∧ tr1.results.buf = []
      ∧ taskResultDrain tr1 = some (tr1, tr.err) := by
  refine ⟨{ tr with results := { tr.results with buf := [] } }, ?_, rfl, ?_⟩
  · simp [taskResultDrain, hclosed]
  · simp [taskResultDrain, hclosed]

/-- Witness for C7: a closed channel still holding `[1, 2]` with terminal
error `userErr 5` drains to that error, and draining again returns it
unchanged. -/
theorem drain_idempotent_witness :
    ∃ tr1, taskResultDrain
        { results := { buf := [1, 2], closed := true },
          err := some (GoError.userErr 5) : TaskResult Nat }
        = some (tr1, some (GoError.userErr 5))
      ∧ tr1.results.buf = []
      ∧ taskResultDrain tr1 = some (tr1, some (GoError.userErr 5)) :=
  drain_idempotent
    { results := { buf := [1, 2], closed := true },
      err := some (GoError.userErr 5) } rfl

/-- C8.  The programmer-error policy fails loudly: constructing a worker
pool with fewer than one worker panics, starting an already-started pool
panics, and starting an already-started generator panics — each embedded
as an `Except.error` carrying the source's panic message. -/
theorem programmer_errors_panic (w : Int) (p : Pool) (ctx : Ctx)
    (run : ProducerRun T) (g : Generator T) :
    (w < 1 →
       NewPoolBuffered w = .error "Worker pool must have at least one worker!")
    ∧ (p.started = true →
       poolStart p = .error "attempt to start previously started pool.Pool")
    ∧ (g.started = true →
       generatorStart ctx run g
         = .error "attempt to start previously started generator.Generator") := by
  refine ⟨?_, ?_, ?_⟩
  · intro hw
    have : w ≤ 0 := by omega
    simp [NewPoolBuffered, this]
  · intro hs
    simp [poolStart, hs]
  · intro hs
    simp [generatorStart, hs]

/-- Witness for C8: a zero-worker pool, a started pool, and a started
generator each fail with the corresponding panic message. -/
theorem programmer_errors_panic_witness :
    NewPoolBuffered 0 = .error "Worker pool must have at least one worker!"
    ∧ poolStart { concurrency := 1, started := true, closedRequests := false }
        = .error "attempt to start previously started pool.Pool"
    ∧ generatorStart ⟨none⟩ (runListProducer ([] : List Nat))
        { results := Chan.make Nat, done := false, err := none,
          started := true }
        = .error "attempt to start previously started generator.Generator" := by
  have h := programmer_errors_panic 0
    { concurrency := 1, started := true, closedRequests := false }
    ⟨none⟩ (runListProducer ([] : List Nat))
    { results := Chan.make Nat, done := false, err := none, started := true }
  exact ⟨h.1 (by decide), h.2.1 rfl, h.2.2 rfl⟩

/-- C9.  Frame property of snapshot succession: `s.Next(x)` leaves `s`
untouched — it closes no channel that existed before the call (in
particular not `s`'s expiration channel, whose status is preserved), only
allocating a fresh one; the predecessor's expiration happens only in the
separate `Expire` step of the loop worker's `eventWrapper.Execute`, after
which `s`'s channel is closed. -/
theorem snapshot_next_frame (s : ValueSnap S) (x : S) (h : ChanHeap)
    (d : Nat → S → S) (hv : h.validId s.ab.expId) :
    (∀ i, i < h.size → (valueNext s x h).2.closed i = h.closed i)
    ∧ (valueNext s x h).2.closed s.ab.expId = h.closed s.ab.expId
    ∧ (eventWrapperExecute d s h).2.closed s.ab.expId = true := by
  have hframe : ∀ i, i < h.size →
      (valueNext s x h).2.closed i = h.closed i := by
    intro i hi
    have : i ≠ h.size := Nat.ne_of_lt hi
    simp [valueNext, abstractNext, ChanHeap.alloc, this]
  refine ⟨hframe, hframe s.ab.expId hv, ?_⟩
  simp [eventWrapperExecute, abstractExpire, ChanHeap.closeChan]

/-- Witness for C9: in a one-channel heap, `Next` preserves the open status
of the predecessor's channel while the full event-execution step closes
it. -/
theorem snapshot_next_frame_witness :
    (valueNext { ab := { gen := 4, expId := 0 }, state := (7 : Nat) } 8
        { size := 1, closed := fun _ => false }).2.closed 0 = false
    ∧ (eventWrapperExecute (fun _ st => st)
        { ab := { gen := 4, expId := 0 }, state := (7 : Nat) }
        { size := 1, closed := fun _ => false }).2.closed 0 = true := by
  have h := snapshot_next_frame
    { ab := { gen := 4, expId := 0 }, state := (7 : Nat) } 8
    { size := 1, closed := fun _ => false } (fun _ st => st)
    (by norm_num [ChanHeap.validId])
  exact ⟨h.2.1, h.2.2⟩

/-- C10.  Collect-all edge case: a streaming task that emits zero values
and returns `nil` makes `SubmitStreamingCollectAll` return the empty but
non-nil slice with a `nil` error, while the `nil` slice is returned exactly
on the error paths (here: the task's terminal error, surfaced by the
drain). -/
theorem collectAll_empty_nonnil (V : Type) :
    SubmitStreamingCollectAll ([] : List V) none = (some [], none)
    ∧ (∀ (values : List V), SubmitStreamingCollectAll values none
        = (some values, none))
    ∧ (∀ (values : List V) (e : GoError),
        SubmitStreamingCollectAll values (some e) = (none, some e)) := by
  refine ⟨?_, ?_, ?_⟩
  · rfl
  · intro values
    simp [SubmitStreamingCollectAll, SubmitStreamingBuffered,
      callbackTaskResults_nil_callback, collectCallbackLoop_eq]
  · intro values e
    simp [SubmitStreamingCollectAll, SubmitStreamingBuffered,
      callbackTaskResults_nil_callback]

end SafeConcurrency
